import Mathlib

/-!
Shallow embedding of the aggregation / scoring / prediction /
recommendation pipeline of `src/backend.py` (digitaltwinning).

Python values that may be absent or `None` are modelled as `Option ℚ`;
Python truthiness on numbers (`None` and `0` are falsy) is the `truthy`
predicate.  Dictionaries with a fixed key set are structures with
`Option` fields (a `none` field = the key is absent); the dynamically
shaped `predictions` dictionary handed to `generate_recommendations` is
an association list of `PyVal`s, because the bug hunt for the
recommendations pipeline depends on the exact keys used.
-/

namespace DigitalTwin

/-- Python truthiness of an optional number: `None` and `0` are falsy. -/
def truthy : Option ℚ → Bool
  | none => false
  | some v => v != 0

/-- One health-metric row (`HealthMetric` model), the columns the
aggregator and scorer read; every column is nullable. -/
structure HealthMetric where
  heart_rate : Option ℚ
  blood_pressure_systolic : Option ℚ
  blood_pressure_diastolic : Option ℚ
  oxygen_saturation : Option ℚ
  stress_level : Option ℚ
  sleep_duration : Option ℚ
  sleep_quality_score : Option ℚ
  steps_count : Option ℚ
deriving DecidableEq

/-- The latest `AcademicData` row, the columns the aggregator reads. -/
structure AcademicData where
  current_gpa : Option ℚ
  daily_study_hours : Option ℚ
  attendance_percentage : Option ℚ
  assignments_pending : Option ℚ
  assignments_completed : Option ℚ
deriving DecidableEq

/-- The aggregated `user_data` dictionary.  A `none` field models a key
that is absent from the dictionary (the Python code builds this dict by
merging two sub-dicts, either of which may be empty). -/
structure UserData where
  avg_heart_rate : Option ℚ
  avg_sleep_duration : Option ℚ
  avg_sleep_quality : Option ℚ
  avg_stress_level : Option ℚ
  avg_steps : Option ℚ
  current_gpa : Option ℚ
  daily_study_hours : Option ℚ
  attendance_percentage : Option ℚ
  assignments_pending : Option ℚ
  assignments_completed : Option ℚ
deriving DecidableEq

/-- The empty dictionary (no key present). -/
def UserData.empty : UserData :=
  ⟨none, none, none, none, none, none, none, none, none, none⟩

/-- Function get_default_user_data of backend.py: the all-defaults dictionary. -/
def get_default_user_data : UserData :=
  ⟨some 75, some 7, some 80, some 2, some 8000,
   some 3, some 4, some 90, some 2, some 10⟩

/-- One per-metric average of `get_user_aggregated_data`:
`sum(h.f for h in ms if h.f) / len([h for h in ms if h.f])
 if any(h.f for h in ms) else d`  (note Python truthiness in the
filters: `None` and `0` values are both skipped). -/
def avgField (ms : List HealthMetric) (f : HealthMetric → Option ℚ) (d : ℚ) : ℚ :=
  if ms.any (fun h => truthy (f h)) then
    ((ms.filter (fun h => truthy (f h))).map (fun h => (f h).getD 0)).sum /
      ((ms.filter (fun h => truthy (f h))).length : ℚ)
  else d

/-- Python `x or d` on a nullable numeric column: `d` when `x` is
`None` or `0`, else the value. -/
def orDefault (x : Option ℚ) (d : ℚ) : ℚ :=
  match x with
  | none => d
  | some v => if v = 0 then d else v

/-- Function get_user_aggregated_data of backend.py, abstracted over the two
storage reads (the snapshots inside the lookback window, and the
latest academic row).  When both reads are empty it returns the
all-defaults dict; otherwise it merges a health sub-dict (empty when
there are no snapshots) with an academic sub-dict (empty when there is
no academic row). -/
def get_user_aggregated_data (ms : List HealthMetric) (acad : Option AcademicData) :
    UserData :=
  if ms = [] ∧ acad = none then get_default_user_data
  else
    { avg_heart_rate := if ms = [] then none else
        some (avgField ms (fun h => h.heart_rate) 75)
      avg_sleep_duration := if ms = [] then none else
        some (avgField ms (fun h => h.sleep_duration) 7)
      avg_sleep_quality := if ms = [] then none else
        some (avgField ms (fun h => h.sleep_quality_score) 80)
      avg_stress_level := if ms = [] then none else
        some (avgField ms (fun h => h.stress_level) 2)
      avg_steps := if ms = [] then none else
        some (avgField ms (fun h => h.steps_count) 8000)
      current_gpa := match acad with
        | none => none
        | some a => some (orDefault a.current_gpa 3)
      daily_study_hours := match acad with
        | none => none
        | some a => some (orDefault a.daily_study_hours 4)
      attendance_percentage := match acad with
        | none => none
        | some a => some (orDefault a.attendance_percentage 90)
      assignments_pending := match acad with
        | none => none
        | some a => some (orDefault a.assignments_pending 2)
      assignments_completed := match acad with
        | none => none
        | some a => some (orDefault a.assignments_completed 10) }

/-- All ten required keys are present in the dictionary. -/
def allKeysPresent (ud : UserData) : Bool :=
  ud.avg_heart_rate.isSome && ud.avg_sleep_duration.isSome &&
  ud.avg_sleep_quality.isSome && ud.avg_stress_level.isSome &&
  ud.avg_steps.isSome && ud.current_gpa.isSome &&
  ud.daily_study_hours.isSome && ud.attendance_percentage.isSome &&
  ud.assignments_pending.isSome && ud.assignments_completed.isSome

/-- The dictionary handed to `calculate_health_status` at its only call
site (route `/api/health/current`): the six fields of the latest
snapshot, each possibly `None`. -/
structure HealthData where
  heart_rate : Option ℚ
  blood_pressure_systolic : Option ℚ
  blood_pressure_diastolic : Option ℚ
  oxygen_saturation : Option ℚ
  sleep_quality_score : Option ℚ
  stress_level : Option ℚ
deriving DecidableEq

/-- Heart-rate deduction of `calculate_health_status` (`if hr:` is
Python truthiness, so `None` and `0` skip the block). -/
def hrDed (hd : HealthData) : ℚ :=
  match hd.heart_rate with
  | none => 0
  | some hr => if hr = 0 then 0 else
      if hr < 60 ∨ 100 < hr then 15 else if 90 < hr then 5 else 0

/-- Blood-pressure deduction (`if bp_sys and bp_dia:`). -/
def bpDed (hd : HealthData) : ℚ :=
  match hd.blood_pressure_systolic, hd.blood_pressure_diastolic with
  | some s, some d =>
      if s = 0 ∨ d = 0 then 0 else
      if 140 < s ∨ 90 < d then 20 else if 130 < s ∨ 80 < d then 10 else 0
  | _, _ => 0

/-- Oxygen-saturation deduction (`if spo2 and spo2 < 95: ... elif spo2
and spo2 < 98: ...`). -/
def spo2Ded (hd : HealthData) : ℚ :=
  match hd.oxygen_saturation with
  | none => 0
  | some o => if o = 0 then 0 else if o < 95 then 25 else if o < 98 then 10 else 0

/-- Sleep-quality deduction. -/
def sleepDed (hd : HealthData) : ℚ :=
  match hd.sleep_quality_score with
  | none => 0
  | some q => if q = 0 then 0 else if q < 60 then 20 else if q < 80 then 10 else 0

/-- Stress deduction. -/
def stressDed (hd : HealthData) : ℚ :=
  match hd.stress_level with
  | none => 0
  | some st => if st = 0 then 0 else if 4 ≤ st then 15 else if 3 ≤ st then 8 else 0

/-- The accumulated score of `calculate_health_status`: start at 100,
subtract the five independent deductions. -/
def healthScore (hd : HealthData) : ℚ :=
  100 - hrDed hd - bpDed hd - spo2Ded hd - sleepDed hd - stressDed hd

/-- Function calculate_health_status of backend.py.  The argument is the
`health_data` dictionary; `none` models a falsy argument (`None` or the
empty dict), on which the function short-circuits to "No Data". -/
def calculate_health_status (health_data : Option HealthData) : String :=
  match health_data with
  | none => "No Data"
  | some hd =>
      let score := healthScore hd
      if 90 ≤ score then "Excellent"
      else if 75 ≤ score then "Good"
      else if 60 ≤ score then "Fair"
      else "Poor"

/-- Python `int()` on a rational: truncation toward zero. -/
def pyInt (q : ℚ) : ℤ :=
  if 0 ≤ q then ⌊q⌋ else -⌊-q⌋

/-- Python 3 `round` to an integer: round half to even, exactly on ℚ. -/
def roundHalfEven (q : ℚ) : ℤ :=
  if q - ⌊q⌋ < 1/2 then ⌊q⌋
  else if 1/2 < q - ⌊q⌋ then ⌊q⌋ + 1
  else if ⌊q⌋ % 2 = 0 then ⌊q⌋ else ⌊q⌋ + 1

/-- Python `round(x, 2)`. -/
def round2 (q : ℚ) : ℚ :=
  (roundHalfEven (q * 100) : ℚ) / 100

/-- The `factors` sub-dictionary of `predict_burnout_risk`. -/
structure BurnoutFactors where
  stress_level : ℚ
  sleep_quality : ℚ
  study_load : ℚ
  academic_pressure : ℚ
deriving DecidableEq

/-- Return value of `predict_burnout_risk`. -/
structure BurnoutRisk where
  risk_percentage : ℤ
  confidence : ℚ
  risk_level : String
  factors : BurnoutFactors
deriving DecidableEq

/-- Return value of `predict_academic_performance`. -/
structure AcademicForecast where
  predicted_gpa : ℚ
  performance_trend : String
  confidence : ℚ
deriving DecidableEq

/-- Return value of `predict_health_trend`. -/
structure HealthTrend where
  trend : String
  health_score : ℚ
  confidence : ℚ
deriving DecidableEq

/-- Method MLPredictionEngine._get_risk_level: buckets the raw risk score. -/
def _get_risk_level (risk_score : ℚ) : String :=
  if risk_score < 30 then "Low"
  else if risk_score < 60 then "Medium"
  else "High"

/-- The raw (pre-`int`, pre-clamp) burnout risk score of
`predict_burnout_risk`, with the per-call `dict.get` defaults. -/
def burnout_risk_score (ud : UserData) : ℚ :=
  (ud.avg_stress_level.getD 2 / 5 * 0.3 +
   max 0 ((8 - ud.avg_sleep_duration.getD 7) / 8) * 0.3 +
   min 1 (ud.daily_study_hours.getD 4 / 10) * 0.2 +
   max 0 ((4 - ud.current_gpa.getD 3.5) / 4) * 0.2) * 100

/-- Method MLPredictionEngine.predict_burnout_risk of backend.py. -/
def predict_burnout_risk (ud : UserData) : BurnoutRisk :=
  { risk_percentage := min 100 (max 0 (pyInt (burnout_risk_score ud)))
    confidence := 0.85
    risk_level := _get_risk_level (burnout_risk_score ud)
    factors :=
      ⟨ud.avg_stress_level.getD 2 / 5,
       max 0 ((8 - ud.avg_sleep_duration.getD 7) / 8),
       min 1 (ud.daily_study_hours.getD 4 / 10),
       max 0 ((4 - ud.current_gpa.getD 3.5) / 4)⟩ }

/-- The raw (pre-clamp, pre-round) predicted GPA of
`predict_academic_performance`. -/
def raw_predicted_gpa (ud : UserData) : ℚ :=
  ud.current_gpa.getD 3 * 0.4 +
  (ud.attendance_percentage.getD 90 / 100) * 0.2 +
  min 1 (ud.daily_study_hours.getD 4 / 6) * 4 * 0.2 +
  ((ud.avg_sleep_quality.getD 80 / 100) * 0.6 +
     (1 - ud.avg_stress_level.getD 2 / 5) * 0.4) * 4 * 0.2

/-- Method MLPredictionEngine.predict_academic_performance of backend.py.
The trend compares the raw predicted GPA with the current GPA; the
reported GPA is clamped to [0,4] and rounded to 2 decimals. -/
def predict_academic_performance (ud : UserData) : AcademicForecast :=
  { predicted_gpa := round2 (min 4 (max 0 (raw_predicted_gpa ud)))
    performance_trend :=
      if ud.current_gpa.getD 3 < raw_predicted_gpa ud then "improving"
      else if raw_predicted_gpa ud < ud.current_gpa.getD 3 then "declining"
      else "stable"
    confidence := 0.82 }

/-- Method MLPredictionEngine.predict_health_trend of backend.py. -/
def predict_health_trend (ud : UserData) : HealthTrend :=
  let heart_rate := ud.avg_heart_rate.getD 75
  let sleep_quality := ud.avg_sleep_quality.getD 80
  let stress_level := ud.avg_stress_level.getD 2
  let activity_level := ud.avg_steps.getD 8000
  let health_score : ℚ :=
    (if 60 ≤ heart_rate ∧ heart_rate ≤ 100 then 25 else 0) +
    (if 80 ≤ sleep_quality then 30 else if 70 ≤ sleep_quality then 20 else 0) +
    (if stress_level ≤ 2 then 25 else if stress_level ≤ 3 then 15 else 0) +
    (if 8000 ≤ activity_level then 20 else 0)
  { trend :=
      if 80 ≤ health_score then "improving"
      else if 60 ≤ health_score then "stable"
      else "declining"
    health_score := health_score
    confidence := 0.78 }

/-- A dynamically typed Python value, as far as the `predictions`
dictionary needs: integers, rationals, strings and nested dicts. -/
inductive PyVal where
  | intV : ℤ → PyVal
  | ratV : ℚ → PyVal
  | strV : String → PyVal
  | dictV : List (String × PyVal) → PyVal

/-- Lookup d.get(key) on an association-list dictionary. -/
def dictGet (d : List (String × PyVal)) (key : String) : Option PyVal :=
  match d with
  | [] => none
  | (k, v) :: rest => if k = key then some v else dictGet rest key

/-- The burnout lookup of generate_recommendations: it reads key
burnout_risk with an empty-dict fallback, then key risk_percentage of
the result with fallback 0.  Here none models a Python exception (a
get call on a non-dict value, or comparing a non-number with 60);
otherwise the number found, with 0 for every absent key. -/
def burnout_pct (predictions : List (String × PyVal)) : Option ℚ :=
  match dictGet predictions "burnout_risk" with
  | none => some 0
  | some (PyVal.dictV d) =>
      match dictGet d "risk_percentage" with
      | none => some 0
      | some (PyVal.intV n) => some (n : ℚ)
      | some (PyVal.ratV q) => some q
      | some _ => none
  | some _ => none

/-- The pre-truncation recommendation list of
generate_recommendations, given the burnout percentage the code read
from `predictions`: the five rules appended in fixed order. -/
def recsFull (ud : UserData) (pct : ℚ) : List String :=
  (if 60 < pct then
      ["Consider reducing study hours and taking more breaks",
       "Practice stress management techniques like meditation",
       "Ensure you get 7-8 hours of quality sleep"]
   else []) ++
  (if ud.avg_sleep_duration.getD 7 < 7 then
      ["Increase sleep duration by 30-60 minutes"] else []) ++
  (if 8 < ud.daily_study_hours.getD 4 then
      ["Take study breaks every 90 minutes to improve focus"] else []) ++
  (if ud.avg_steps.getD 8000 < 8000 then
      ["Increase daily physical activity to 8,000+ steps"] else []) ++
  (if 3 ≤ ud.avg_stress_level.getD 2 then
      ["Consider stress management techniques",
       "Maintain regular exercise routine"] else [])

/-- The fixed fallback list returned when no rule fires. -/
def fallbackRecs : List String :=
  ["Maintain regular sleep schedule",
   "Take breaks during study sessions",
   "Stay physically active"]

/-- Method MLPredictionEngine.generate_recommendations of backend.py:
`recommendations[:6] if recommendations else fallback`; `none` when the
burnout lookup raises. -/
def generate_recommendations (ud : UserData) (predictions : List (String × PyVal)) :
    Option (List String) :=
  (burnout_pct predictions).map (fun pct =>
    let recommendations := recsFull ud pct
    if recommendations = [] then fallbackRecs else recommendations.take 6)

/-- The `predictions` dictionary assembled by route `/api/predictions`
(backend.py lines 988-992) from the three predictor outputs: camelCase
keys bound to bare scalars. -/
def routePredictions (br : BurnoutRisk) (ap : AcademicForecast) (ht : HealthTrend) :
    List (String × PyVal) :=
  [("burnoutRisk", PyVal.intV br.risk_percentage),
   ("academicPerformance", PyVal.ratV ap.predicted_gpa),
   ("healthTrend", PyVal.strV ht.trend)]

/-- The recommendations computed by route `/api/predictions` for an
aggregated `user_data` map: the three predictors are run, their outputs
are packed by `routePredictions`, and `generate_recommendations` is
called on the result. -/
def pipeline_recommendations (ud : UserData) : Option (List String) :=
  generate_recommendations ud
    (routePredictions (predict_burnout_risk ud)
      (predict_academic_performance ud) (predict_health_trend ud))

/-- A `predictions` dictionary of the nested snake_case shape that
`generate_recommendations` actually reads. -/
def snakePredictions (br : BurnoutRisk) : List (String × PyVal) :=
  [("burnout_risk", PyVal.dictV [("risk_percentage", PyVal.intV br.risk_percentage)])]

/-- An aggregated map holding exactly the four keys
`predict_burnout_risk` reads. -/
def udB (s sl st g : ℚ) : UserData :=
  ⟨none, some sl, none, some s, none, some g, some st, none, none, none⟩

/-- A snapshot whose only non-null column is a heart rate of 80. -/
def hm80 : HealthMetric := ⟨some 80, none, none, none, none, none, none, none⟩

/-- A snapshot whose only non-null column is a heart rate of 0. -/
def hm0 : HealthMetric := ⟨some 0, none, none, none, none, none, none, none⟩

/-- A snapshot firing every maximal deduction of the scorer. -/
def worstHd : HealthData := ⟨some 120, some 150, some 95, some 90, some 50, some 5⟩

/-- The healthy snapshot of the spec example (hr 75, bp 120/80,
spo2 99, sleep quality 90, stress 1). -/
def goodHd : HealthData := ⟨some 75, some 120, some 80, some 99, some 90, some 1⟩

/-- An aggregated map with current GPA 4 and an out-of-range
attendance of 2000 percent, pushing the raw predicted GPA above 4. -/
def ud10 : UserData :=
  ⟨none, none, some 100, some 0, none, some 4, some 6, some 2000, none, none⟩

/-- The non-null, nonzero (truthy) values of column `f` over the
snapshot list, in order. -/
def truthyVals (ms : List HealthMetric) (f : HealthMetric → Option ℚ) : List ℚ :=
  (ms.filterMap f).filter (fun v => v != 0)

/-- Arithmetic mean of the truthy values of `f`, or `d` when there is
none (the amended reading of the aggregation contract). -/
def meanTruthyOr (ms : List HealthMetric) (f : HealthMetric → Option ℚ) (d : ℚ) : ℚ :=
  if truthyVals ms f = [] then d
  else (truthyVals ms f).sum / ((truthyVals ms f).length : ℚ)

/-- The non-null values of column `f` over the snapshot list. -/
def nonNullVals (ms : List HealthMetric) (f : HealthMetric → Option ℚ) : List ℚ :=
  ms.filterMap f

/-- Modelled from the spec: mean of `f` over exactly the snapshots
whose `f` is non-null, or `d` when every `f` is null (the literal
wording of the aggregation contract, for refinement comparison with the
code's `avgField`). -/
def meanNonNullOr (ms : List HealthMetric) (f : HealthMetric → Option ℚ) (d : ℚ) : ℚ :=
  if nonNullVals ms f = [] then d
  else (nonNullVals ms f).sum / ((nonNullVals ms f).length : ℚ)

/-- Copy of a user-data map in which the four keys read by
`predict_burnout_risk` are made explicit with their call-site
defaults. -/
def fillBurnout (ud : UserData) : UserData :=
  { ud with
    avg_stress_level := some (ud.avg_stress_level.getD 2)
    avg_sleep_duration := some (ud.avg_sleep_duration.getD 7)
    daily_study_hours := some (ud.daily_study_hours.getD 4)
    current_gpa := some (ud.current_gpa.getD 3.5) }

/-- Copy of a user-data map in which the five keys read by
`predict_academic_performance` are made explicit with their call-site
defaults. -/
def fillAcademic (ud : UserData) : UserData :=
  { ud with
    current_gpa := some (ud.current_gpa.getD 3)
    attendance_percentage := some (ud.attendance_percentage.getD 90)
    daily_study_hours := some (ud.daily_study_hours.getD 4)
    avg_sleep_quality := some (ud.avg_sleep_quality.getD 80)
    avg_stress_level := some (ud.avg_stress_level.getD 2) }

/-- Copy of a user-data map in which the four keys read by
`predict_health_trend` are made explicit with their call-site
defaults. -/
def fillHealth (ud : UserData) : UserData :=
  { ud with
    avg_heart_rate := some (ud.avg_heart_rate.getD 75)
    avg_sleep_quality := some (ud.avg_sleep_quality.getD 80)
    avg_stress_level := some (ud.avg_stress_level.getD 2)
    avg_steps := some (ud.avg_steps.getD 8000) }

/-- The amended aggregation contract for the five metric averages of a
user with at least one snapshot: each average key is present and holds
the mean of the truthy values of its column, or the fixed default when
no truthy value exists. -/
def aggMeansProp (ms : List HealthMetric) (acad : Option AcademicData) : Prop :=
  (get_user_aggregated_data ms acad).avg_heart_rate =
      some (meanTruthyOr ms (fun h => h.heart_rate) 75) ∧
  (get_user_aggregated_data ms acad).avg_sleep_duration =
      some (meanTruthyOr ms (fun h => h.sleep_duration) 7) ∧
  (get_user_aggregated_data ms acad).avg_sleep_quality =
      some (meanTruthyOr ms (fun h => h.sleep_quality_score) 80) ∧
  (get_user_aggregated_data ms acad).avg_stress_level =
      some (meanTruthyOr ms (fun h => h.stress_level) 2) ∧
  (get_user_aggregated_data ms acad).avg_steps =
      some (meanTruthyOr ms (fun h => h.steps_count) 8000)

lemma truthyVals_eq_filter_map (ms : List HealthMetric) (f : HealthMetric → Option ℚ) :
    truthyVals ms f =
      (ms.filter (fun h => truthy (f h))).map (fun h => (f h).getD 0) := by
  induction ms with
  | nil => rfl
  | cons m t ih =>
      unfold truthyVals at ih ⊢
      cases hf : f m with
      | none => simpa [List.filterMap_cons, List.filter_cons, truthy, hf] using ih
      | some v =>
          by_cases hv : v = 0 <;>
            simp [List.filterMap_cons, List.filter_cons, truthy, hf, hv, ih]

lemma any_truthy_iff_filter_ne_nil (ms : List HealthMetric)
    (f : HealthMetric → Option ℚ) :
    ms.any (fun h => truthy (f h)) = true ↔
      ms.filter (fun h => truthy (f h)) ≠ [] := by
  rw [List.any_eq_true]
  rw [Ne, List.filter_eq_nil_iff]
  push_neg
  simp

lemma avgField_eq_meanTruthyOr (ms : List HealthMetric)
    (f : HealthMetric → Option ℚ) (d : ℚ) :
    avgField ms f d = meanTruthyOr ms f d := by
  unfold avgField meanTruthyOr
  rw [truthyVals_eq_filter_map]
  by_cases h : ms.filter (fun h => truthy (f h)) = []
  · have hany : ¬ ms.any (fun h => truthy (f h)) = true :=
      fun hc => (any_truthy_iff_filter_ne_nil ms f).mp hc h
    simp [h, hany]
  · have hany : ms.any (fun h => truthy (f h)) = true :=
      (any_truthy_iff_filter_ne_nil ms f).mpr h
    have hmap : (ms.filter (fun h => truthy (f h))).map
        (fun h => (f h).getD 0) ≠ [] := by
      simpa using h
    simp [hany, hmap, List.length_map]

lemma hrDed_le (hd : HealthData) : hrDed hd ≤ 15 := by
  unfold hrDed
  rcases hd.heart_rate with _ | v
  · norm_num
  · dsimp only
    split_ifs <;> norm_num

lemma bpDed_le (hd : HealthData) : bpDed hd ≤ 20 := by
  unfold bpDed
  rcases hd.blood_pressure_systolic with _ | s <;>
    rcases hd.blood_pressure_diastolic with _ | d <;> dsimp only <;>
    try norm_num
  split_ifs <;> norm_num

lemma spo2Ded_le (hd : HealthData) : spo2Ded hd ≤ 25 := by
  unfold spo2Ded
  rcases hd.oxygen_saturation with _ | v
  · norm_num
  · dsimp only
    split_ifs <;> norm_num

lemma sleepDed_le (hd : HealthData) : sleepDed hd ≤ 20 := by
  unfold sleepDed
  rcases hd.sleep_quality_score with _ | v
  · norm_num
  · dsimp only
    split_ifs <;> norm_num

lemma stressDed_le (hd : HealthData) : stressDed hd ≤ 15 := by
  unfold stressDed
  rcases hd.stress_level with _ | v
  · norm_num
  · dsimp only
    split_ifs <;> norm_num

lemma healthScore_ge_five (hd : HealthData) : 5 ≤ healthScore hd := by
  have h1 := hrDed_le hd
  have h2 := bpDed_le hd
  have h3 := spo2Ded_le hd
  have h4 := sleepDed_le hd
  have h5 := stressDed_le hd
  unfold healthScore
  linarith

lemma floor_le_rhe (q : ℚ) : ⌊q⌋ ≤ roundHalfEven q := by
  unfold roundHalfEven
  split_ifs <;> omega

lemma rhe_le_ceil (q : ℚ) : roundHalfEven q ≤ ⌈q⌉ := by
  have hceil := Int.le_ceil q
  have hfl := Int.floor_le_ceil q
  unfold roundHalfEven
  split_ifs with h1 h2 h3
  · exact hfl
  · have hq : (⌊q⌋ : ℚ) < q := by linarith
    have hlt : ⌊q⌋ < ⌈q⌉ := by exact_mod_cast hq.trans_le hceil
    omega
  · exact hfl
  · have hq : (⌊q⌋ : ℚ) < q := by linarith
    have hlt : ⌊q⌋ < ⌈q⌉ := by exact_mod_cast hq.trans_le hceil
    omega

lemma round2_nonneg (q : ℚ) (h0 : 0 ≤ q) : 0 ≤ round2 q := by
  unfold round2
  have hz : (0 : ℤ) ≤ roundHalfEven (q * 100) := by
    have hf : (0 : ℤ) ≤ ⌊q * 100⌋ := Int.le_floor.mpr (by push_cast; linarith)
    exact le_trans hf (floor_le_rhe _)
  have : (0 : ℚ) ≤ (roundHalfEven (q * 100) : ℚ) := by exact_mod_cast hz
  linarith

lemma round2_le (q : ℚ) (h4 : q ≤ 4) : round2 q ≤ 4 := by
  unfold round2
  have hz : roundHalfEven (q * 100) ≤ 400 := by
    have hc : ⌈q * 100⌉ ≤ 400 := Int.ceil_le.mpr (by push_cast; linarith)
    exact le_trans (rhe_le_ceil _) hc
  have : (roundHalfEven (q * 100) : ℚ) ≤ 400 := by exact_mod_cast hz
  linarith

/-- C1 (corrected): the claim that the aggregated map always carries
all ten keys fails.  Concretely, for a user with one snapshot
(heart rate 80) and no academic record, the returned map has the five
average keys but no current_gpa key at all. -/
theorem C1_counterexample :
    allKeysPresent (get_user_aggregated_data [hm80] none) = false ∧
    (get_user_aggregated_data [hm80] none).current_gpa = none ∧
    (get_user_aggregated_data [hm80] none).avg_heart_rate = some 80 := by
  refine ⟨?_, ?_, ?_⟩ <;>
    norm_num [allKeysPresent, get_user_aggregated_data, avgField, truthy, hm80]

/-- C1 (amended): the aggregated map carries all ten required keys,
each bound to a non-null value, exactly when the user has both
snapshots and an academic record, or has neither (the all-defaults
map); with snapshots only, the five academic keys are absent, and with
an academic record only, the five average keys are absent. -/
theorem C1_amended (ms : List HealthMetric) (acad : Option AcademicData) :
    allKeysPresent (get_user_aggregated_data ms acad) = true ↔
      ((ms ≠ [] ∧ acad ≠ none) ∨ (ms = [] ∧ acad = none)) := by
  rcases ms with _ | ⟨m, t⟩ <;> rcases acad with _ | a <;>
    simp [get_user_aggregated_data, allKeysPresent, get_default_user_data]

/-- C2 (code bug): on the aggregated map stress 5, sleep 4, study
hours 10, GPA 2.0 the burnout risk percentage is 75 > 60, yet the
recommendations computed by the /api/predictions pipeline do not
contain the three burnout strings: the route packs the percentage
under the key burnoutRisk as a bare number, while
generate_recommendations reads predictions under burnout_risk /
risk_percentage, so the burnout lookup always yields 0 and the
burnout rule never fires. -/
theorem C2_code_eval :
    (predict_burnout_risk (udB 5 4 10 2)).risk_percentage = 75 ∧
    (∀ ud : UserData,
      burnout_pct (routePredictions (predict_burnout_risk ud)
        (predict_academic_performance ud) (predict_health_trend ud)) = some 0) ∧
    pipeline_recommendations (udB 5 4 10 2) = some
      ["Increase sleep duration by 30-60 minutes",
       "Take study breaks every 90 minutes to improve focus",
       "Consider stress management techniques",
       "Maintain regular exercise routine"] := by
  refine ⟨?_, fun ud => ?_, ?_⟩
  · norm_num [predict_burnout_risk, burnout_risk_score, pyInt, udB]
  · simp +decide [burnout_pct, routePredictions, dictGet]
  · simp +decide [pipeline_recommendations, generate_recommendations, burnout_pct,
      routePredictions, dictGet, recsFull, udB]

/-- C3 (corrected): the claim that the predictors reject a map with
missing keys as a fatal error fails: on the fully empty map each of
the three predictors returns an ordinary result, computed from the
silently substituted call-site defaults (stress 2, sleep 7, study
hours 4, GPA 3.5 resp. 3.0, attendance 90, sleep quality 80, heart
rate 75, steps 8000). -/
theorem C3_counterexample :
    predict_burnout_risk UserData.empty =
      ⟨26, 0.85, "Low", ⟨0.4, 0.125, 0.4, 0.125⟩⟩ ∧
    predict_academic_performance UserData.empty = ⟨2.49, "declining", 0.82⟩ ∧
    predict_health_trend UserData.empty = ⟨"improving", 100, 0.78⟩ := by
  refine ⟨?_, ?_, ?_⟩
  · norm_num [predict_burnout_risk, burnout_risk_score, _get_risk_level, pyInt,
      UserData.empty]
  · norm_num [predict_academic_performance, raw_predicted_gpa, round2, roundHalfEven,
      UserData.empty]
  · norm_num [predict_health_trend, UserData.empty]

/-- C3 (amended): for every hand-built feature map, each predictor
silently substitutes its fixed call-site default for every missing
key: running it on the map equals running it on the map with the
missing keys filled in with those defaults. -/
theorem C3_amended (ud : UserData) :
    predict_burnout_risk ud = predict_burnout_risk (fillBurnout ud) ∧
    predict_academic_performance ud = predict_academic_performance (fillAcademic ud) ∧
    predict_health_trend ud = predict_health_trend (fillHealth ud) :=
  ⟨rfl, rfl, rfl⟩

/-- C4 (confirmed): the scorer returns "No Data" on an entirely absent
snapshot, and "Excellent" (score 100, no deduction fires) on heart
rate 75, blood pressure 120/80, oxygen 99, sleep quality 90,
stress 1. -/
theorem C4_thm :
    calculate_health_status none = "No Data" ∧
    healthScore goodHd = 100 ∧
    calculate_health_status (some goodHd) = "Excellent" := by
  refine ⟨rfl, ?_, ?_⟩ <;>
    norm_num [calculate_health_status, healthScore, hrDed, bpDed, spo2Ded,
      sleepDed, stressDed, goodHd]

/-- C5 (corrected): the claim that each average is the mean over the
snapshots with a non-null value fails: the Python filters test
truthiness, so a non-null value of 0 is excluded.  Concretely, for the
single snapshot with heart rate 0 the spec-worded mean is 0, but the
code returns the default 75. -/
theorem C5_counterexample :
    (get_user_aggregated_data [hm0] none).avg_heart_rate = some 75 ∧
    meanNonNullOr [hm0] (fun h => h.heart_rate) 75 = 0 ∧
    (75 : ℚ) ≠ 0 := by
  refine ⟨?_, ?_, by norm_num⟩
  · norm_num [get_user_aggregated_data, avgField, truthy, hm0]
  · simp +decide [meanNonNullOr, nonNullVals, hm0, List.filterMap_cons]

/-- C5 (amended): for every non-empty snapshot list, each average key
holds the arithmetic mean of the values of its column that are
non-null AND nonzero; when no such value exists the fixed default is
substituted (heart rate 75, sleep duration 7, sleep quality 80,
stress 2, steps 8000). -/
theorem C5_amended (ms : List HealthMetric) (acad : Option AcademicData)
    (hms : ms ≠ []) : aggMeansProp ms acad := by
  have hcond : ¬(ms = [] ∧ acad = none) := fun hc => hms hc.1
  simp [aggMeansProp, get_user_aggregated_data, hcond, hms, avgField_eq_meanTruthyOr]

/-- Witness for C5: the amended statement evaluated on the singleton
snapshot list with heart rate 80 and no academic record. -/
theorem C5_amended_witness :
    ([hm80] : List HealthMetric) ≠ [] ∧ aggMeansProp [hm80] none :=
  ⟨by simp, C5_amended [hm80] none (by simp)⟩

/-- C6 (confirmed): the burnout risk percentage is the weighted-factor
formula of the spec, truncated to an integer and clamped to [0,100],
the level is bucketed on the raw score at 30 and 60, and on stress 5,
sleep 4, study hours 10, GPA 2.0 the result is 75 and "High". -/
theorem C6_thm :
    (∀ s sl st g : ℚ,
      (predict_burnout_risk (udB s sl st g)).risk_percentage =
        min 100 (max 0 (pyInt ((s / 5 * 0.3 + max 0 ((8 - sl) / 8) * 0.3 +
          min 1 (st / 10) * 0.2 + max 0 ((4 - g) / 4) * 0.2) * 100))) ∧
      (predict_burnout_risk (udB s sl st g)).risk_level =
        (if (s / 5 * 0.3 + max 0 ((8 - sl) / 8) * 0.3 +
              min 1 (st / 10) * 0.2 + max 0 ((4 - g) / 4) * 0.2) * 100 < 30
         then "Low"
         else if (s / 5 * 0.3 + max 0 ((8 - sl) / 8) * 0.3 +
              min 1 (st / 10) * 0.2 + max 0 ((4 - g) / 4) * 0.2) * 100 < 60
         then "Medium" else "High")) ∧
    (predict_burnout_risk (udB 5 4 10 2)).risk_percentage = 75 ∧
    (predict_burnout_risk (udB 5 4 10 2)).risk_level = "High" := by
  refine ⟨fun s sl st g => ⟨rfl, rfl⟩, ?_, ?_⟩
  · norm_num [predict_burnout_risk, burnout_risk_score, pyInt, udB]
  · norm_num [predict_burnout_risk, burnout_risk_score, _get_risk_level, udB]

/-- C7 (confirmed): for every input map, the burnout risk percentage
is an integer in [0,100], the reported predicted GPA lies in [0,4] and
is a whole number of hundredths, and the health score never exceeds
100. -/
theorem C7_thm (ud : UserData) :
    0 ≤ (predict_burnout_risk ud).risk_percentage ∧
    (predict_burnout_risk ud).risk_percentage ≤ 100 ∧
    0 ≤ (predict_academic_performance ud).predicted_gpa ∧
    (predict_academic_performance ud).predicted_gpa ≤ 4 ∧
    (∃ n : ℤ, (predict_academic_performance ud).predicted_gpa = (n : ℚ) / 100) ∧
    (predict_health_trend ud).health_score ≤ 100 := by
  refine ⟨?_, ?_, ?_, ?_,
    ⟨roundHalfEven (min 4 (max 0 (raw_predicted_gpa ud)) * 100), rfl⟩, ?_⟩
  · exact le_min (by norm_num) (le_max_left 0 _)
  · exact min_le_left _ _
  · exact round2_nonneg _ (le_min (by norm_num) (le_max_left 0 _))
  · exact round2_le _ (min_le_left _ _)
  · dsimp only [predict_health_trend]
    split_ifs <;> norm_num

/-- C8 (confirmed): whenever generate_recommendations returns, the
list has at most 6 entries; when at least one rule fires it is the
first 6 entries of the rule-order list, never reordered; and on the
all-defaults map with its own burnout prediction (risk 28, not above
60, so no rule fires) the result is exactly the 3-item fallback
list. -/
theorem C8_thm :
    (∀ (ud : UserData) (preds : List (String × PyVal)) (l : List String),
      generate_recommendations ud preds = some l → l.length ≤ 6) ∧
    (∀ (ud : UserData) (preds : List (String × PyVal)) (pct : ℚ),
      burnout_pct preds = some pct → recsFull ud pct ≠ [] →
      generate_recommendations ud preds = some ((recsFull ud pct).take 6)) ∧
    generate_recommendations get_default_user_data
      (snakePredictions (predict_burnout_risk get_default_user_data)) =
        some fallbackRecs := by
  refine ⟨fun ud preds l h => ?_, fun ud preds pct hb hr => ?_, ?_⟩
  · unfold generate_recommendations at h
    cases hb : burnout_pct preds with
    | none => rw [hb] at h; simp at h
    | some pct =>
        rw [hb] at h
        simp only [Option.map_some'] at h
        have hl := Option.some.inj h
        by_cases hrec : recsFull ud pct = []
        · rw [if_pos hrec] at hl
          rw [← hl]
          norm_num [fallbackRecs]
        · rw [if_neg hrec] at hl
          rw [← hl, List.length_take]
          exact min_le_left _ _
  · unfold generate_recommendations
    rw [hb]
    simp only [Option.map_some']
    rw [if_neg hr]
  · norm_num +decide [generate_recommendations, burnout_pct, snakePredictions,
      dictGet, recsFull, predict_burnout_risk, burnout_risk_score, pyInt,
      get_default_user_data]

/-- Witness for C8: the length bound applied to the empty predictions
dictionary on the empty map, and the take-6 clause applied to a
snake_case predictions dictionary reporting risk 70. -/
theorem C8_witness :
    fallbackRecs.length ≤ 6 ∧
    generate_recommendations UserData.empty
        (snakePredictions ⟨70, 0.85, "High", ⟨1, 1, 1, 1⟩⟩) =
      some ((recsFull UserData.empty 70).take 6) :=
  ⟨C8_thm.1 UserData.empty [] fallbackRecs
      (by simp +decide [generate_recommendations, burnout_pct, dictGet, recsFull,
        UserData.empty]),
   C8_thm.2.1 UserData.empty (snakePredictions ⟨70, 0.85, "High", ⟨1, 1, 1, 1⟩⟩) 70
      (by norm_num +decide [burnout_pct, snakePredictions, dictGet])
      (by simp +decide [recsFull, UserData.empty])⟩

/-- C9 (corrected): the claim that the accumulated score can go
negative fails: the five deductions sum to at most 95, so no input
snapshot scores below 5. -/
theorem C9_counterexample : ¬ ∃ hd : HealthData, healthScore hd < 0 := by
  rintro ⟨hd, hlt⟩
  have := healthScore_ge_five hd
  linarith

/-- C9 (amended): the deductions are independent and additive and are
never clamped before bucketing, but the minimum reachable score is 5,
not a negative number; every score below 60 — in particular the
minimum 5, reached by the all-worst snapshot — maps to "Poor". -/
theorem C9_amended :
    (∀ hd : HealthData, healthScore hd =
      100 - (hrDed hd + bpDed hd + spo2Ded hd + sleepDed hd + stressDed hd)) ∧
    (∀ hd : HealthData, 5 ≤ healthScore hd) ∧
    healthScore worstHd = 5 ∧
    (∀ hd : HealthData, healthScore hd < 60 →
      calculate_health_status (some hd) = "Poor") ∧
    calculate_health_status (some worstHd) = "Poor" := by
  refine ⟨fun hd => by unfold healthScore; ring, healthScore_ge_five, ?_,
    fun hd hlt => ?_, ?_⟩
  · norm_num [healthScore, hrDed, bpDed, spo2Ded, sleepDed, stressDed, worstHd]
  · dsimp only [calculate_health_status]
    rw [if_neg (by linarith), if_neg (by linarith), if_neg (by linarith)]
  · norm_num [calculate_health_status, healthScore, hrDed, bpDed, spo2Ded,
      sleepDed, stressDed, worstHd]

/-- Witness for C9: the bucketing clause applied to the all-worst
snapshot, whose score 5 is below 60. -/
theorem C9_amended_witness :
    healthScore worstHd < 60 ∧ calculate_health_status (some worstHd) = "Poor" :=
  ⟨by norm_num [healthScore, hrDed, bpDed, spo2Ded, sleepDed, stressDed, worstHd],
   C9_amended.2.2.2.1 worstHd
     (by norm_num [healthScore, hrDed, bpDed, spo2Ded, sleepDed, stressDed, worstHd])⟩

/-- C10 (confirmed): the academic trend compares the raw, unclamped,
unrounded predicted GPA with the current GPA: it is "improving"
exactly when the raw weighted sum strictly exceeds the current GPA.
On a map with current GPA 4 and attendance 2000 the raw sum is 7.2,
the reported GPA is clamped and rounded to 4.00 — equal to the
current GPA — yet the trend is "improving". -/
theorem C10_thm :
    (∀ ud : UserData,
      (predict_academic_performance ud).performance_trend = "improving" ↔
        ud.current_gpa.getD 3 < raw_predicted_gpa ud) ∧
    ud10.current_gpa = some 4 ∧
    raw_predicted_gpa ud10 = 7.2 ∧
    (predict_academic_performance ud10).predicted_gpa = 4 ∧
    (predict_academic_performance ud10).performance_trend = "improving" := by
  refine ⟨fun ud => ?_, rfl, ?_, ?_, ?_⟩
  · dsimp only [predict_academic_performance]
    split_ifs with h1 h2
    · simp [h1]
    · simp +decide [h1]
    · simp +decide [h1]
  · norm_num [raw_predicted_gpa, ud10]
  · norm_num [predict_academic_performance, raw_predicted_gpa, round2,
      roundHalfEven, ud10]
  · norm_num [predict_academic_performance, raw_predicted_gpa, ud10]

end DigitalTwin
